import Mathlib

/-!
Shallow embedding of the domain logic of the Gestion Locative application
(src/gestion_locative/app.py): data model, form validation, dashboard and
statistics aggregation, and receipt generation.  Python floats are modelled
as rationals (the claims are about exact sums and order comparisons),
dates as year/month/day triples of naturals, database rows as Lean
structures and the database as lists of rows.  Python truthiness of the
optional form fields is modelled explicitly.
-/

namespace GestionLocative

/-- A calendar date (models a Python `datetime.date`). -/
structure Date where
  year : Nat
  month : Nat
  day : Nat
deriving DecidableEq, Repr

/-- Lexicographic strict order on dates, modelling Python `date < date`. -/
def Date.lt (a b : Date) : Bool :=
  a.year < b.year ∨ (a.year = b.year ∧ (a.month < b.month ∨ (a.month = b.month ∧ a.day < b.day)))

/-- Python truthiness of an optional integer field (`not data[k]` is true
for `None` and for `0`). -/
def pyTruthyOptInt (o : Option Int) : Bool :=
  match o with
  | none => false
  | some n => n != 0

/-- Python truthiness of an optional string field (`not data.get(k)` is
true for `None` and for `''`). -/
def pyTruthyOptStr (o : Option String) : Bool :=
  match o with
  | none => false
  | some s => !s.isEmpty

/-- `MOIS_NOMS` from app.py: full French month names, 1-indexed. -/
def MOIS_NOMS : List String :=
  ["", "Janvier", "Février", "Mars", "Avril", "Mai", "Juin",
   "Juillet", "Août", "Septembre", "Octobre", "Novembre", "Décembre"]

/-- `MOIS_NOMS_COURTS` from app.py: short French month names, 1-indexed. -/
def MOIS_NOMS_COURTS : List String :=
  ["", "Jan", "Fév", "Mar", "Avr", "Mai", "Jun",
   "Jul", "Aoû", "Sep", "Oct", "Nov", "Déc"]

/-- Row of the `Bien` (Property) table. -/
structure Bien where
  id : Nat
  nom : String
  type_bien : String
  adresse : String
  surface : Option ℚ
  description : String
  charges_mensuelles : ℚ
  date_acquisition : Option Date
deriving DecidableEq, Repr

/-- Row of the `Locataire` (Tenant) table. -/
structure Locataire where
  id : Nat
  nom : String
  prenom : Option String
  email : String
  telephone : String
  date_naissance : Option Date
  raison_sociale : Option String
  siret : Option String
  dirigeant : Option String
  bien_id : Nat
  date_debut_bail : Date
  date_fin_bail : Option Date
  loyer_mensuel : ℚ
  depot_garantie : ℚ
  jour_paiement : Int
  actif : Bool
deriving DecidableEq, Repr

/-- Row of the `Bailleur` (Landlord) table. -/
structure Bailleur where
  id : Nat
  nom : String
  adresse : String
  code_postal : String
  ville : String
  telephone : String
  email : String
  siret : String
deriving DecidableEq, Repr

/-- Row of the `Paiement` (Payment) table. -/
structure Paiement where
  id : Nat
  locataire_id : Nat
  montant : ℚ
  date_paiement : Date
  mois_concerne : String
  categorie : String
  mode_paiement : String
  commentaire : String
  quittance_generee : Bool
deriving DecidableEq, Repr

/-- The database: the four tables, each a list of rows in insertion order. -/
structure DB where
  biens : List Bien
  locataires : List Locataire
  bailleurs : List Bailleur
  paiements : List Paiement
deriving Repr

/-- The `Locataire.paiements` relationship: the payments whose foreign key
points at this tenant. -/
def paiementsOf (db : DB) (loc : Locataire) : List Paiement :=
  db.paiements.filter (fun p => p.locataire_id == loc.id)

/-- The `Bien.locataires` relationship: the tenants whose foreign key
points at this property. -/
def locatairesOf (db : DB) (bien : Bien) : List Locataire :=
  db.locataires.filter (fun l => l.bien_id == bien.id)

/-- `Bien.locataire_actuel`: the first tenant of the property flagged
active, if any. -/
def locataire_actuel (db : DB) (bien : Bien) : Option Locataire :=
  (locatairesOf db bien).find? (fun l => l.actif)

/-- `Bien.query.get(id)`: look a property up by primary key.  The id comes
from a form, hence is an arbitrary optional integer. -/
def bienGet (db : DB) (i : Option Int) : Option Bien :=
  match i with
  | none => none
  | some n => db.biens.find? (fun b => (b.id : Int) == n)

/-! ### Parsed payment form and its validation (`_validate_paiement_data`) -/

/-- The record produced by `_parse_paiement_form`: every numeric/date field
optional (the safe parsers return `None` on absent or malformed input). -/
structure PaiementData where
  locataire_id : Option Int
  montant : Option ℚ
  date_paiement : Option Date
  mois_concerne : String
  categorie : String
  mode_paiement : String
  commentaire : String
deriving DecidableEq, Repr

def msgSelectLocataire : String := "Veuillez sélectionner un locataire."
def msgMontantPositif : String := "Le montant doit être un nombre positif."
def msgDatePaiement : String := "La date de paiement est obligatoire."
def msgMoisConcerne : String := "Le mois concerné est obligatoire."

/-- `_validate_paiement_data` from app.py, transcribed check for check. -/
def _validate_paiement_data (data : PaiementData) : Option String :=
  if !pyTruthyOptInt data.locataire_id then some msgSelectLocataire
  else if (match data.montant with | none => true | some m => decide (m ≤ 0)) then
    some msgMontantPositif
  else if data.date_paiement.isNone then some msgDatePaiement
  else if data.mois_concerne.isEmpty then some msgMoisConcerne
  else none

/-- First-failing-rule combinator: given an ordered list of
(rule-is-violated, message) pairs, the message of the earliest violated
rule, or `none` when all rules pass. -/
def firstFail (rules : List (Bool × String)) : Option String :=
  (rules.find? (fun r => r.1)).map (fun r => r.2)

/-- The payment validation rules in the order the specification lists
them: tenant id present; amount present and > 0; payment date present;
concerned-month token non-empty. -/
def specPaiementRules (data : PaiementData) : List (Bool × String) :=
  [ (!pyTruthyOptInt data.locataire_id, msgSelectLocataire),
    (!(match data.montant with | none => false | some m => decide (0 < m)), msgMontantPositif),
    (data.date_paiement.isNone, msgDatePaiement),
    (data.mois_concerne.isEmpty, msgMoisConcerne) ]

/-! ### Parsed tenant form and its validation (`_validate_locataire_data`) -/

/-- The record produced by `_parse_locataire_form`.  `nom` defaults to the
empty string; `prenom`, `raison_sociale`, `siret` and `dirigeant` are
`None` when blank; the numeric and date fields are `None` on absent or
malformed input. -/
structure LocataireData where
  nom : String
  prenom : Option String
  email : String
  telephone : String
  date_naissance : Option Date
  raison_sociale : Option String
  siret : Option String
  dirigeant : Option String
  bien_id : Option Int
  date_debut_bail : Option Date
  date_fin_bail : Option Date
  loyer_mensuel : Option ℚ
  depot_garantie : Option ℚ
  jour_paiement : Option Int
deriving DecidableEq, Repr

def msgSelectBien : String := "Veuillez sélectionner un bien."
def msgBienIntrouvable : String := "Le bien sélectionné est introuvable."
def msgRaisonSociale : String := "La raison sociale est obligatoire pour un local commercial."
def msgSiretObligatoire : String := "Le numéro SIRET est obligatoire pour un local commercial."
def msgSiret14 : String := "Le numéro SIRET doit contenir exactement 14 chiffres."
def msgNomPrenom : String := "Le nom et le prénom sont obligatoires."
def msgDateDebut : String := "La date de début de bail est obligatoire."
def msgLoyer : String := "Le loyer mensuel doit être un nombre positif."
def msgDepot : String := "Le dépôt de garantie ne peut pas être négatif."
def msgJourPaiement : String := "Le jour de paiement doit être entre 1 et 28."
def msgFinBail : String := "La date de fin de bail doit être postérieure à la date de début."

/-- Python `str.isdigit` restricted to ASCII digits (the unicode digit
classes are not modelled); false on the empty string, as in Python. -/
def pyIsDigit (s : String) : Bool :=
  !s.isEmpty && s.data.all Char.isDigit

/-- The checks of `_validate_locataire_data` that apply to every tenant
kind (the tail of the function after the kind-specific branch). -/
def _validate_locataire_common (data : LocataireData) : Option String :=
  if data.date_debut_bail.isNone then some msgDateDebut
  else if (match data.loyer_mensuel with | none => true | some l => decide (l < 0)) then
    some msgLoyer
  else if (match data.depot_garantie with | none => false | some dg => decide (dg < 0)) then
    some msgDepot
  else if (match data.jour_paiement with
           | none => false
           | some j => decide (j < 1) || decide (28 < j)) then
    some msgJourPaiement
  else if (match data.date_fin_bail, data.date_debut_bail with
           | some fin, some debut => Date.lt fin debut
           | _, _ => false) then
    some msgFinBail
  else none

/-- `_validate_locataire_data` from app.py, transcribed check for check:
property id required and resolvable; then kind-specific checks driven by
the resolved property's type; then the common lease checks. -/
def _validate_locataire_data (db : DB) (data : LocataireData) : Option String :=
  if !pyTruthyOptInt data.bien_id then some msgSelectBien
  else
    match bienGet db data.bien_id with
    | none => some msgBienIntrouvable
    | some bien =>
      if bien.type_bien == "local_commercial" then
        if !pyTruthyOptStr data.raison_sociale then some msgRaisonSociale
        else if !pyTruthyOptStr data.siret then some msgSiretObligatoire
        else if (data.siret.getD "").length != 14 || !pyIsDigit (data.siret.getD "") then
          some msgSiret14
        else _validate_locataire_common data
      else
        if data.nom.isEmpty || !pyTruthyOptStr data.prenom then some msgNomPrenom
        else _validate_locataire_common data

/-- A well-formed SIRET, following the specification's words: exactly 14
characters, all of them digits. -/
def specSiretOk (s : String) : Bool :=
  s.length == 14 && s.data.all Char.isDigit

/-- The tenant validation rules common to both tenant kinds, in the order
the specification lists them: lease start date present; monthly rent
present and ≥ 0; deposit (if present) ≥ 0; payment day (if present)
within [1,28]; lease end date (if present) not before lease start date. -/
def specCommonRules (data : LocataireData) : List (Bool × String) :=
  [ (data.date_debut_bail.isNone, msgDateDebut),
    (!(match data.loyer_mensuel with | none => false | some l => decide (0 ≤ l)), msgLoyer),
    ((match data.depot_garantie with | none => false | some dg => decide (dg < 0)), msgDepot),
    ((match data.jour_paiement with
      | none => false
      | some j => !(decide (1 ≤ j) && decide (j ≤ 28))), msgJourPaiement),
    ((match data.date_fin_bail, data.date_debut_bail with
      | some fin, some debut => Date.lt fin debut
      | _, _ => false), msgFinBail) ]

/-- The full ordered rule list of the specification for a tenant whose
property resolved to `bien`: the commercial checks (non-empty company
name, non-empty SIRET, SIRET exactly 14 digits) when the property is a
commercial premises, the individual checks (non-empty last and first
name) otherwise, followed by the common lease rules. -/
def specLocataireRules (bien : Bien) (data : LocataireData) : List (Bool × String) :=
  (if bien.type_bien == "local_commercial" then
    [ (!pyTruthyOptStr data.raison_sociale, msgRaisonSociale),
      (!pyTruthyOptStr data.siret, msgSiretObligatoire),
      (!specSiretOk (data.siret.getD ""), msgSiret14) ]
   else
    [ (data.nom.isEmpty || !pyTruthyOptStr data.prenom, msgNomPrenom) ])
  ++ specCommonRules data

/-! ### Month tokens and `strftime('%Y-%m')` -/

/-- A year–month pair (only the year and month of a `date` matter to the
month-token logic). -/
structure YM where
  year : Nat
  month : Nat
deriving DecidableEq, Repr

/-- The decimal digit character for `d`. -/
def digitChar (d : Nat) : Char := Char.ofNat (48 + d)

/-- Two-digit zero-padded rendering of a month number, modelling
`strftime('%m')`. -/
def pad2 (m : Nat) : String :=
  String.mk [digitChar (m / 10 % 10), digitChar (m % 10)]

/-- Four-digit rendering of a year, modelling `strftime('%Y')` for years
in [1000, 9999]. -/
def yearStr (y : Nat) : String :=
  String.mk [digitChar (y / 1000 % 10), digitChar (y / 100 % 10),
             digitChar (y / 10 % 10), digitChar (y % 10)]

/-- `strftime('%Y-%m')`: the `YYYY-MM` month token of a date. -/
def fmtYM (ym : YM) : String := yearStr ym.year ++ "-" ++ pad2 ym.month

/-- The year–month of a date. -/
def Date.ym (d : Date) : YM := ⟨d.year, d.month⟩

/-! ### Dashboard (`index`) -/

/-- `Locataire.query.filter_by(actif=True)`: the active tenants. -/
def locataires_actifs (db : DB) : List Locataire :=
  db.locataires.filter (fun l => l.actif)

/-- `Locataire.loyer_total`: monthly rent plus the owning property's
monthly charges (0 when the tenant has no property). -/
def loyer_total (db : DB) (loc : Locataire) : ℚ :=
  loc.loyer_mensuel +
    (match db.biens.find? (fun b => b.id == loc.bien_id) with
     | some b => b.charges_mensuelles
     | none => 0)

/-- Dashboard `revenus_mensuels`: the sum of `loyer_total` over the
active tenants. -/
def revenus_mensuels_dashboard (db : DB) : ℚ :=
  ((locataires_actifs db).map (fun l => loyer_total db l)).sum

/-- Dashboard `total_percu`: the sum of the amounts of the payments whose
concerned month is the current month. -/
def total_percu_dashboard (db : DB) (today : Date) : ℚ :=
  ((db.paiements.filter (fun p => p.mois_concerne == fmtYM today.ym)).map
    (fun p => p.montant)).sum

/-- Dashboard `loyers_en_retard`: the active tenants having no payment
recorded for the current month once today's day-of-month is past their
payment day. -/
def loyers_en_retard (db : DB) (today : Date) : List Locataire :=
  (locataires_actifs db).filter (fun loc =>
    !(paiementsOf db loc).any (fun p => p.mois_concerne == fmtYM today.ym)
      && decide (loc.jour_paiement < (today.day : Int)))

/-! ### Statistics page (`statistiques`): per-property totals -/

/-- The group-by-tenant sum of payment amounts, read through the dict's
absent-key default of 0: the lifetime total collected from tenant `lid`. -/
def totaux_par_locataire (db : DB) (lid : Nat) : ℚ :=
  ((db.paiements.filter (fun p => p.locataire_id == lid)).map
    (fun p => p.montant)).sum

/-- One row of `biens_stats`: the property, its current active tenant and
the lifetime total collected from that tenant (0 with no active tenant). -/
def bien_stat (db : DB) (bien : Bien) : Bien × Option Locataire × ℚ :=
  match locataire_actuel db bien with
  | some loc => (bien, some loc, totaux_par_locataire db loc.id)
  | none => (bien, none, 0)

/-- The statistics page's `biens_stats` list, one row per property. -/
def biens_stats (db : DB) : List (Bien × Option Locataire × ℚ) :=
  db.biens.map (fun bien => bien_stat db bien)

/-! ### Statistics page: trailing-12-month revenue series -/

/-- The linear month index of a year–month (months since year 0). -/
def ymIndex (ym : YM) : Nat := ym.year * 12 + (ym.month - 1)

/-- The year–month of a linear month index. -/
def ymOfIndex (n : Nat) : YM := ⟨n / 12, n % 12 + 1⟩

/-- `date - relativedelta(months=i)` at year–month precision. -/
def ymSubMonths (ym : YM) (i : Nat) : YM := ymOfIndex (ymIndex ym - i)

/-- The codepoints of a string (for UTF-8 text these order like the byte
sequences SQLite's memcmp compares, and the tokens at play are ASCII). -/
def bytesOf (s : String) : List Nat := s.data.map Char.toNat

/-- Lexicographic order on codepoint lists. -/
def lexLe : List Nat → List Nat → Bool
  | [], _ => true
  | _ :: _, [] => false
  | a :: as, b :: bs => if a < b then true else if b < a then false else lexLe as bs

/-- SQLite's text comparison, used by the `mois_concerne >= mois_min`
filter of the revenue query. -/
def sqlStrLe (a b : String) : Bool := lexLe (bytesOf a) (bytesOf b)

/-- The per-month totals dict of `statistiques` (`revenus_dict`), read
through `.get(key, 0) or 0`: the sum of the amounts of the payments at or
after `mois_min` whose concerned-month token equals `key`. -/
def revenusDict (paiements : List Paiement) (mois_min key : String) : ℚ :=
  ((paiements.filter
      (fun p => sqlStrLe mois_min p.mois_concerne && p.mois_concerne == key)).map
    (fun p => p.montant)).sum

/-- The chart label of a month: short localized month name and year. -/
def moisLabel (ym : YM) : String :=
  MOIS_NOMS_COURTS.getD ym.month "" ++ " " ++ toString ym.year

/-- The trailing-12-month series of `statistiques` (`revenus_mensuels`):
for i = 11 down to 0, the label and total of the month i months before
the current one. -/
def revenus_mensuels (paiements : List Paiement) (today : YM) : List (String × ℚ) :=
  (List.range 12).map (fun k =>
    (moisLabel (ymSubMonths today (11 - k)),
     revenusDict paiements (fmtYM (ymSubMonths today 12))
       (fmtYM (ymSubMonths today (11 - k)))))

/-- The 12 month tokens the series covers, oldest first. -/
def monthsList (today : YM) : List String :=
  (List.range 12).map (fun k => fmtYM (ymSubMonths today (11 - k)))

/-! ### Receipt generation (`generer_quittance`) -/

/-- The numeric value of a list of ASCII digit characters. -/
def digitsVal (cs : List Char) : Nat :=
  cs.foldl (fun a c => a * 10 + (c.toNat - 48)) 0

/-- Python `int(s)` on a string: an optional sign followed by digits
(CPython's whitespace, underscore and unicode-digit tolerances are not
modelled); `none` when `int` would raise `ValueError`. -/
def pyInt? (s : String) : Option Int :=
  match s.data with
  | [] => none
  | '-' :: rest =>
    if !rest.isEmpty && rest.all Char.isDigit then some (-(digitsVal rest : Int))
    else none
  | '+' :: rest =>
    if !rest.isEmpty && rest.all Char.isDigit then some (digitsVal rest : Int)
    else none
  | cs =>
    if cs.all Char.isDigit then some (digitsVal cs : Int) else none

/-- Splitting a character list at every occurrence of a separator
character, keeping empty parts (the accumulator holds the current part
reversed). -/
def splitCharAux (sep : Char) : List Char → List Char → List (List Char)
  | [], acc => [acc.reverse]
  | c :: cs, acc =>
    if c == sep then acc.reverse :: splitCharAux sep cs []
    else splitCharAux sep cs (c :: acc)

/-- Python `s.split(sep)` for a one-character separator. -/
def pySplit (sep : Char) (s : String) : List String :=
  (splitCharAux sep s.data []).map (fun cs => String.mk cs)

/-- The month-token parsing step of `generer_quittance`: split on `-`,
require exactly two parts, parse the month part as an integer, check the
year part parses as an integer, and require the month number in [1,12];
yields the year string and the month number. -/
def parseMoisToken (mois : String) : Option (String × Int) :=
  match pySplit '-' mois with
  | [annee, moisPart] =>
    match pyInt? moisPart, pyInt? annee with
    | some moisNum, some _ =>
      if moisNum < 1 ∨ 12 < moisNum then none else some (annee, moisNum)
    | _, _ => none
  | _ => none

/-- Modelled on the specification's words: a month token is valid when it
is exactly two `-`-separated parts, the first parseable as an integer and
the second an integer in [1,12]. -/
def specValidMonthToken (mois : String) : Bool :=
  match pySplit '-' mois with
  | [a, b] =>
    (pyInt? a).isSome &&
      (match pyInt? b with
       | some n => decide (1 ≤ n) && decide (n ≤ 12)
       | none => false)
  | _ => false

/-- One step of the per-category grouping loop of `generer_quittance`:
append the payment to its category's list in the insertion-ordered dict,
creating the entry when absent. -/
def groupAdd (acc : List (String × List Paiement)) (p : Paiement) :
    List (String × List Paiement) :=
  if acc.any (fun kv => kv.1 == p.categorie) then
    acc.map (fun kv => if kv.1 == p.categorie then (kv.1, kv.2 ++ [p]) else kv)
  else acc ++ [(p.categorie, [p])]

/-- The `paiements_par_categorie` dict of `generer_quittance`. -/
def paiements_par_categorie (ps : List Paiement) : List (String × List Paiement) :=
  ps.foldl groupAdd []

/-- The entry of an insertion-ordered dict at a key. -/
def findGroup (g : List (String × List Paiement)) (c : String) :
    Option (List Paiement) :=
  (g.find? (fun kv => kv.1 == c)).map (fun kv => kv.2)

/-- The data assembled by `generer_quittance` for the template. -/
structure QuittanceView where
  locataire : Locataire
  bailleur : Option Bailleur
  paiements : List Paiement
  paiements_par_categorie : List (String × List Paiement)
  total_paiements : ℚ
  mois : String
  mois_nom : String
  annee : String
  date_generation : Date
deriving Repr

def msgMoisInvalide : String := "Format de mois invalide."
def msgNotFound : String := "404 Not Found"

/-- `generer_quittance`: look up the tenant (404 otherwise), parse the
month token (format error otherwise), fetch the tenant's payments whose
concerned month equals the token, group them by category, compute the
grand total, and resolve the localized month name. -/
def generer_quittance (db : DB) (today : Date) (locataire_id : Nat) (mois : String) :
    Except String QuittanceView :=
  match db.locataires.find? (fun l => l.id == locataire_id) with
  | none => .error msgNotFound
  | some locataire =>
    match parseMoisToken mois with
    | none => .error msgMoisInvalide
    | some (annee, moisNum) =>
      let paiements := db.paiements.filter
        (fun p => p.locataire_id == locataire_id && p.mois_concerne == mois)
      .ok
        { locataire := locataire,
          bailleur := db.bailleurs.head?,
          paiements := paiements,
          paiements_par_categorie := paiements_par_categorie paiements,
          total_paiements := (paiements.map (fun p => p.montant)).sum,
          mois := mois,
          mois_nom := MOIS_NOMS.getD moisNum.toNat "",
          annee := annee,
          date_generation := today }

/-! ### Concrete fixtures (the demonstration rows of `init_db`, plus a
tenant, payments and form records used to instantiate the theorems) -/

def bienAppartement : Bien :=
  { id := 1, nom := "Appartement Centre-Ville", type_bien := "appartement",
    adresse := "12 rue de la République, 75001 Paris", surface := some 65,
    description := "Appartement T3 lumineux avec balcon",
    charges_mensuelles := 150, date_acquisition := some ⟨2020, 1, 15⟩ }

def bienLocal : Bien :=
  { id := 2, nom := "Local Commercial", type_bien := "local_commercial",
    adresse := "45 avenue des Champs, 75008 Paris", surface := some 120,
    description := "Local commercial avec vitrine, idéal commerce de proximité",
    charges_mensuelles := 200, date_acquisition := some ⟨2018, 6, 1⟩ }

def locMartin : Locataire :=
  { id := 1, nom := "Martin", prenom := some "Claire", email := "", telephone := "",
    date_naissance := none, raison_sociale := none, siret := none, dirigeant := none,
    bien_id := 1, date_debut_bail := ⟨2024, 1, 1⟩, date_fin_bail := none,
    loyer_mensuel := 800, depot_garantie := 800, jour_paiement := 5, actif := true }

def locAcme : Locataire :=
  { id := 2, nom := "", prenom := none, email := "", telephone := "",
    date_naissance := none, raison_sociale := some "ACME SARL",
    siret := some "12345678901234", dirigeant := some "Jean Dupont",
    bien_id := 2, date_debut_bail := ⟨2023, 6, 1⟩, date_fin_bail := none,
    loyer_mensuel := 1200, depot_garantie := 2400, jour_paiement := 1, actif := true }

def bailleurDemo : Bailleur :=
  { id := 1, nom := "M. Propriétaire", adresse := "1 place de la Mairie",
    code_postal := "75001", ville := "Paris", telephone := "", email := "", siret := "" }

def paiementLoyerOct : Paiement :=
  { id := 1, locataire_id := 1, montant := 950, date_paiement := ⟨2025, 10, 3⟩,
    mois_concerne := "2025-10", categorie := "loyer", mode_paiement := "virement",
    commentaire := "", quittance_generee := false }

def paiementEauOct : Paiement :=
  { id := 2, locataire_id := 1, montant := 35, date_paiement := ⟨2025, 10, 7⟩,
    mois_concerne := "2025-10", categorie := "eau_assainissement",
    mode_paiement := "virement", commentaire := "", quittance_generee := false }

def paiementLoyerSep : Paiement :=
  { id := 3, locataire_id := 1, montant := 950, date_paiement := ⟨2025, 9, 4⟩,
    mois_concerne := "2025-09", categorie := "loyer", mode_paiement := "virement",
    commentaire := "", quittance_generee := false }

def paiementAcmeOct : Paiement :=
  { id := 4, locataire_id := 2, montant := 1400, date_paiement := ⟨2025, 10, 2⟩,
    mois_concerne := "2025-10", categorie := "loyer", mode_paiement := "chèque",
    commentaire := "", quittance_generee := false }

def demoDB : DB :=
  { biens := [bienAppartement, bienLocal],
    locataires := [locMartin, locAcme],
    bailleurs := [bailleurDemo],
    paiements := [paiementLoyerOct, paiementEauOct, paiementLoyerSep, paiementAcmeOct] }

/-- A parsed commercial-tenant form that passes every check. -/
def dataCommercial : LocataireData :=
  { nom := "", prenom := none, email := "", telephone := "", date_naissance := none,
    raison_sociale := some "ACME SARL", siret := some "12345678901234",
    dirigeant := some "Jean Dupont", bien_id := some 2,
    date_debut_bail := some ⟨2024, 1, 1⟩, date_fin_bail := none,
    loyer_mensuel := some 1200, depot_garantie := some 0, jour_paiement := some 5 }

/-- A parsed commercial-tenant form whose SIRET is too short. -/
def dataCommercialBadSiret : LocataireData :=
  { dataCommercial with siret := some "123" }

end GestionLocative

namespace GestionLocative

theorem firstFail_cons (b : Bool) (m : String) (rest : List (Bool × String)) :
    firstFail ((b, m) :: rest) = if b then some m else firstFail rest := by
  cases b <;> simp [firstFail, List.find?]

theorem firstFail_nil : firstFail [] = none := rfl

theorem firstFail_append (a b : List (Bool × String)) :
    firstFail (a ++ b) =
      match firstFail a with
      | some m => some m
      | none => firstFail b := by
  induction a with
  | nil => simp [firstFail]
  | cons hd tl ih =>
    obtain ⟨c, m⟩ := hd
    cases c <;> simp [firstFail_cons, ih]

theorem firstFail_eq_none (rs : List (Bool × String)) :
    firstFail rs = none ↔ ∀ r ∈ rs, r.1 = false := by
  simp [firstFail, List.find?_eq_none]

theorem loyer_cond_eq (m : Option ℚ) :
    (match m with | none => true | some l => decide (l < 0))
      = !(match m with | none => false | some l => decide (0 ≤ l)) := by
  rcases m with _ | l
  · rfl
  · simp only [← decide_not, decide_eq_decide]
    exact not_le.symm

theorem jour_cond_eq (j : Option Int) :
    (match j with | none => false | some j => decide (j < 1) || decide (28 < j))
      = (match j with
         | none => false
         | some j => !(decide (1 ≤ j) && decide (j ≤ 28))) := by
  rcases j with _ | j
  · rfl
  · by_cases h1 : j < 1
    · have h1' : ¬ (1 : ℤ) ≤ j := by omega
      simp [h1, h1']
    · by_cases h2 : 28 < j
      · have h2' : ¬ j ≤ 28 := by omega
        simp [h1, h2, h2']
      · have h1' : (1 : ℤ) ≤ j := by omega
        have h2' : j ≤ 28 := by omega
        simp [h1, h2, h1', h2']

theorem siret_cond_eq (s : String) :
    (s.length != 14 || !pyIsDigit s) = !specSiretOk s := by
  by_cases h : s.length = 14
  · have hne : s.isEmpty = false := by
      cases hE : s.isEmpty
      · rfl
      · rw [String.isEmpty_iff] at hE
        subst hE
        simp at h
    simp [h, pyIsDigit, specSiretOk, hne]
  · have hb : (s.length != 14) = true := by simpa using h
    simp [hb, h, pyIsDigit, specSiretOk]

theorem common_firstFail (data : LocataireData) :
    _validate_locataire_common data = firstFail (specCommonRules data) := by
  simp only [specCommonRules, firstFail_cons, firstFail_nil]
  simp only [_validate_locataire_common, loyer_cond_eq, jour_cond_eq]

/-- C6: payment validation returns the first failing check's message in
spec order; it returns no error iff all checks pass; and it returns the
amount message only when the tenant id is present. -/
theorem paiement_validation_spec (data : PaiementData) :
    _validate_paiement_data data = firstFail (specPaiementRules data) ∧
    (_validate_paiement_data data = none ↔
      ∀ r ∈ specPaiementRules data, r.1 = false) ∧
    (_validate_paiement_data data = some msgMontantPositif →
      pyTruthyOptInt data.locataire_id = true) := by
  obtain ⟨lid, m, dp, mc, c1, c2, c3⟩ := data
  simp only [_validate_paiement_data, firstFail, specPaiementRules, pyTruthyOptInt]
  rcases lid with _ | n
  · simp [msgSelectLocataire, msgMontantPositif]
  · rcases eq_or_ne n 0 with hn | hn
    · simp [hn, msgSelectLocataire, msgMontantPositif]
    · rcases m with _ | mv
      · simp [hn, msgSelectLocataire, msgMontantPositif, msgDatePaiement]
      · rcases le_or_lt mv 0 with hm | hm
        · simp [hn, hm, not_lt.mpr hm]
        · rcases dp with _ | d
          · simp [hn, not_le.mpr hm, msgMontantPositif, msgDatePaiement]
          · rcases eq_or_ne mc.isEmpty true with hmc | hmc
            · simp [hn, not_le.mpr hm, hmc, msgMontantPositif, msgMoisConcerne]
            · simp [hn, not_le.mpr hm, hmc, hm]

/-- C1: for a tenant form whose property id resolves, tenant validation
returns exactly the first violated rule's message of the specification's
ordered rule list (commercial checks or individual checks according to
the resolved property's type, then the common lease checks), and returns
no error iff every rule passes. -/
theorem locataire_validation_spec (db : DB) (data : LocataireData) (bien : Bien)
    (hid : pyTruthyOptInt data.bien_id = true)
    (hb : bienGet db data.bien_id = some bien) :
    _validate_locataire_data db data = firstFail (specLocataireRules bien data) ∧
    (_validate_locataire_data db data = none ↔
      ∀ r ∈ specLocataireRules bien data, r.1 = false) := by
  have h1 : _validate_locataire_data db data
      = firstFail (specLocataireRules bien data) := by
    rw [specLocataireRules, firstFail_append]
    simp only [_validate_locataire_data, hid, Bool.not_true, Bool.false_eq_true,
      if_false, hb]
    cases hc : (bien.type_bien == "local_commercial") <;>
      simp only [Bool.false_eq_true, if_false, if_true, firstFail_cons, firstFail_nil]
    · cases hnp : (data.nom.isEmpty || !pyTruthyOptStr data.prenom) <;>
        simp [common_firstFail]
    · cases hrs : (!pyTruthyOptStr data.raison_sociale)
      · cases hsi : (!pyTruthyOptStr data.siret)
        · rw [siret_cond_eq]
          cases hso : (!specSiretOk (data.siret.getD "")) <;>
            simp [common_firstFail]
        · simp
      · simp
  exact ⟨h1, by rw [h1, firstFail_eq_none]⟩

/-- C8: for a commercial-premises tenant form with a company name and a
present (non-empty) SIRET string, validation passes the SIRET check
exactly when the string is 14 characters all digits — behaving then as
the remaining common checks — and otherwise returns the SIRET-format
message. -/
theorem siret_validation_spec (db : DB) (data : LocataireData) (bien : Bien) (s : String)
    (hid : pyTruthyOptInt data.bien_id = true)
    (hb : bienGet db data.bien_id = some bien)
    (hc : bien.type_bien = "local_commercial")
    (hrs : pyTruthyOptStr data.raison_sociale = true)
    (hs : data.siret = some s) (hne : s ≠ "") :
    (specSiretOk s = true →
      _validate_locataire_data db data = _validate_locataire_common data) ∧
    (specSiretOk s = false →
      _validate_locataire_data db data = some msgSiret14) := by
  have hts : pyTruthyOptStr (some s) = true := by
    cases hE : s.isEmpty
    · simp [pyTruthyOptStr, hE]
    · rw [String.isEmpty_iff] at hE
      exact absurd hE hne
  simp only [_validate_locataire_data, hid, Bool.not_true, Bool.false_eq_true,
    if_false, hb, hc, beq_self_eq_true, if_true, hrs, hts, hs, Option.getD_some]
  rw [siret_cond_eq]
  constructor
  · intro hok
    simp [hok]
  · intro hko
    simp [hko]

/-- C9: when the resolved property is a commercial premises, tenant
validation never inspects the last-name or first-name fields: its result
is unchanged under any replacement of them, and a form whose commercial
and lease checks all pass is accepted even with an empty last name and no
first name. -/
theorem commercial_ignores_names (db : DB) (data : LocataireData) (bien : Bien)
    (hid : pyTruthyOptInt data.bien_id = true)
    (hb : bienGet db data.bien_id = some bien)
    (hc : bien.type_bien = "local_commercial") :
    (∀ n₁ p₁ n₂ p₂,
      _validate_locataire_data db { data with nom := n₁, prenom := p₁ }
        = _validate_locataire_data db { data with nom := n₂, prenom := p₂ }) ∧
    (data.nom = "" → data.prenom = none →
      pyTruthyOptStr data.raison_sociale = true →
      pyTruthyOptStr data.siret = true →
      specSiretOk (data.siret.getD "") = true →
      _validate_locataire_common data = none →
      _validate_locataire_data db data = none) := by
  obtain ⟨nom, prenom, email, tel, dn, rs, si, dir, bid, ddb, dfb, lm, dg, jp⟩ := data
  simp only at hid hb
  constructor
  · intro n₁ p₁ n₂ p₂
    simp only [_validate_locataire_data, _validate_locataire_common, hid, hb, hc,
      Bool.not_true, Bool.false_eq_true, if_false, beq_self_eq_true, if_true]
  · intro hn hp hrs hts hso hcommon
    simp only [_validate_locataire_data, hid, hb, hc, Bool.not_true,
      Bool.false_eq_true, if_false, beq_self_eq_true, if_true, hrs, hts]
    rw [siret_cond_eq]
    simp only at hso hcommon
    simp [hso, hcommon]

/-- Witness for C1: concrete commercial-tenant form against the demo
database. -/
theorem locataire_validation_spec_witness :
    _validate_locataire_data demoDB dataCommercialBadSiret
      = firstFail (specLocataireRules bienLocal dataCommercialBadSiret) :=
  (locataire_validation_spec demoDB dataCommercialBadSiret bienLocal
    (by decide) (by decide)).1

/-- Witness for C8: a 3-character SIRET is rejected with the SIRET-format
message. -/
theorem siret_validation_spec_witness :
    _validate_locataire_data demoDB dataCommercialBadSiret = some msgSiret14 :=
  (siret_validation_spec demoDB dataCommercialBadSiret bienLocal "123"
    (by decide) (by decide) (by decide) (by decide) (by decide) (by decide)).2
    (by decide)

/-- Witness for C9: the all-checks-pass commercial form with empty last
name and no first name is accepted. -/
theorem commercial_ignores_names_witness :
    _validate_locataire_data demoDB dataCommercial = none :=
  (commercial_ignores_names demoDB dataCommercial bienLocal
    (by decide) (by decide) (by decide)).2
    rfl rfl (by decide) (by decide) (by decide) (by decide)

/-- C4: a tenant's total rent is the monthly rent plus the owning
property's monthly charges, the dashboard's monthly revenue is the sum of
total rent over the active tenants, and in the demo database the
charges-150 property with its rent-800 active tenant contributes 950. -/
theorem loyer_total_spec (db : DB) :
    (∀ loc bien, loc ∈ db.locataires →
      db.biens.find? (fun b => b.id == loc.bien_id) = some bien →
      loyer_total db loc = loc.loyer_mensuel + bien.charges_mensuelles) ∧
    revenus_mensuels_dashboard db
      = ((db.locataires.filter (fun l => l.actif)).map
          (fun l => loyer_total db l)).sum ∧
    loyer_total demoDB locMartin = 950 ∧
    revenus_mensuels_dashboard demoDB = 950 + 1400 := by
  refine ⟨?_, rfl, by norm_num [loyer_total, demoDB, locMartin, bienAppartement],
    by norm_num [revenus_mensuels_dashboard, locataires_actifs, loyer_total,
      demoDB, locMartin, locAcme, bienAppartement, bienLocal]⟩
  intro loc bien _ hfind
  simp [loyer_total, hfind]

/-- Witness for C4: the demo tenant's total rent via its resolved
property. -/
theorem loyer_total_spec_witness :
    loyer_total demoDB locMartin
      = locMartin.loyer_mensuel + bienAppartement.charges_mensuelles :=
  (loyer_total_spec demoDB).1 locMartin bienAppartement (by decide) (by decide)

/-- C5: an active tenant appears in the late-payment list iff no payment
of that tenant has the current month's token and today's day-of-month
exceeds the tenant's payment day. -/
theorem loyers_en_retard_spec (db : DB) (today : Date) (loc : Locataire)
    (hmem : loc ∈ db.locataires) (hact : loc.actif = true) :
    loc ∈ loyers_en_retard db today ↔
      ((¬ ∃ p ∈ paiementsOf db loc, p.mois_concerne = fmtYM today.ym) ∧
        loc.jour_paiement < (today.day : Int)) := by
  simp [loyers_en_retard, locataires_actifs, List.mem_filter, hmem, hact]

/-- Witness for C5: the demo tenant with payment day 5 and no November
payment is late on 2025-11-20. -/
theorem loyers_en_retard_spec_witness :
    locMartin ∈ loyers_en_retard demoDB ⟨2025, 11, 20⟩ :=
  (loyers_en_retard_spec demoDB ⟨2025, 11, 20⟩ locMartin (by decide) rfl).mpr
    (by decide)

/-- C7: each property's statistics row carries the sum of the amounts of
all payments of its current active tenant — the first tenant of the
property flagged active — across the tenant's whole history, and 0 when
the property has no active tenant. -/
theorem biens_stats_spec (db : DB) (bien : Bien) (hmem : bien ∈ db.biens) :
    bien_stat db bien ∈ biens_stats db ∧
    (∀ loc, locataire_actuel db bien = some loc →
      bien_stat db bien
        = (bien, some loc,
            ((paiementsOf db loc).map (fun p => p.montant)).sum)) ∧
    (locataire_actuel db bien = none → bien_stat db bien = (bien, none, 0)) := by
  refine ⟨List.mem_map_of_mem _ hmem, ?_, ?_⟩
  · intro loc hloc
    simp [bien_stat, hloc, totaux_par_locataire, paiementsOf]
  · intro hnone
    simp [bien_stat, hnone]

/-- Witness for C7: the demo apartment's row totals its active tenant's
whole payment history. -/
theorem biens_stats_spec_witness :
    bien_stat demoDB bienAppartement
      = (bienAppartement, some locMartin,
          ((paiementsOf demoDB locMartin).map (fun p => p.montant)).sum) :=
  (biens_stats_spec demoDB bienAppartement (by decide)).2.1 locMartin (by decide)

theorem parseMoisToken_none_iff (mois : String) :
    parseMoisToken mois = none ↔ specValidMonthToken mois = false := by
  unfold parseMoisToken specValidMonthToken
  rcases hsp : pySplit '-' mois with _ | ⟨a, _ | ⟨b, _ | ⟨c, t⟩⟩⟩
  · simp
  · simp
  · cases hb : pyInt? b <;> cases ha : pyInt? a
    · simp [hb, ha]
    · simp [hb, ha]
    · simp [hb, ha]
    · rename_i n m
      by_cases h1 : n < 1 ∨ 12 < n <;> simp [hb, ha, h1] <;> omega
  · simp

/-- C3: with an existing tenant, receipt generation fails with the
month-format error iff the token is not exactly two `-`-separated parts
with an integer first part and a second part an integer in [1,12]; on a
successful parse the output month name is the full localized name indexed
by the parsed month number and the year string is the first part; on
`"2024-03"` the month name is `"Mars"` and the year `"2024"`. -/
theorem generer_quittance_format (db : DB) (today : Date) (lid : Nat) (loc : Locataire)
    (hloc : db.locataires.find? (fun l => l.id == lid) = some loc) :
    (∀ mois, generer_quittance db today lid mois = .error msgMoisInvalide ↔
        specValidMonthToken mois = false) ∧
    (∀ mois annee moisNum q, parseMoisToken mois = some (annee, moisNum) →
        generer_quittance db today lid mois = .ok q →
        q.mois_nom = MOIS_NOMS.getD moisNum.toNat "" ∧ q.annee = annee) ∧
    (∃ q, generer_quittance db today lid "2024-03" = .ok q ∧
        q.mois_nom = "Mars" ∧ q.annee = "2024") := by
  refine ⟨?_, ?_, ?_⟩
  · intro mois
    rw [← parseMoisToken_none_iff]
    unfold generer_quittance
    rw [hloc]
    cases hp : parseMoisToken mois with
    | none => simp
    | some v => simp
  · intro mois annee moisNum q hp hq
    unfold generer_quittance at hq
    rw [hloc, hp] at hq
    injection hq with h
    subst h
    exact ⟨rfl, rfl⟩
  · have hp : parseMoisToken "2024-03" = some ("2024", 3) := by decide
    unfold generer_quittance
    rw [hloc, hp]
    exact ⟨_, rfl, rfl, rfl⟩

/-- Witness for C3 on the demo database: the malformed tokens `"2024"`
and `"2024-13"` are rejected with the format error and `"2024-03"` is
accepted with month name `"Mars"`. -/
theorem generer_quittance_format_witness :
    (generer_quittance demoDB ⟨2025, 10, 12⟩ 1 "2024"
        = Except.error msgMoisInvalide ↔ specValidMonthToken "2024" = false) ∧
    (generer_quittance demoDB ⟨2025, 10, 12⟩ 1 "2024-13"
        = Except.error msgMoisInvalide ↔ specValidMonthToken "2024-13" = false) ∧
    (∃ q, generer_quittance demoDB ⟨2025, 10, 12⟩ 1 "2024-03" = .ok q ∧
        q.mois_nom = "Mars" ∧ q.annee = "2024") :=
  ⟨(generer_quittance_format demoDB ⟨2025, 10, 12⟩ 1 locMartin (by decide)).1 "2024",
   (generer_quittance_format demoDB ⟨2025, 10, 12⟩ 1 locMartin (by decide)).1 "2024-13",
   (generer_quittance_format demoDB ⟨2025, 10, 12⟩ 1 locMartin (by decide)).2.2⟩

theorem keys_groupAdd (acc : List (String × List Paiement)) (p : Paiement) :
    (groupAdd acc p).map (fun kv => kv.1) =
      if acc.any (fun kv => kv.1 == p.categorie) then acc.map (fun kv => kv.1)
      else acc.map (fun kv => kv.1) ++ [p.categorie] := by
  by_cases hany : acc.any (fun kv => kv.1 == p.categorie) = true
  · simp only [groupAdd, hany, if_true, List.map_map]
    refine List.map_congr_left ?_
    intro kv _
    dsimp
    split <;> rfl
  · simp [groupAdd, hany]

theorem keys_nodup_groupAdd (acc : List (String × List Paiement)) (p : Paiement)
    (h : (acc.map (fun kv => kv.1)).Nodup) :
    ((groupAdd acc p).map (fun kv => kv.1)).Nodup := by
  rw [keys_groupAdd]
  by_cases hany : acc.any (fun kv => kv.1 == p.categorie) = true
  · simpa [hany]
  · simp only [hany, if_false, Bool.false_eq_true]
    rw [List.nodup_append]
    refine ⟨h, List.nodup_singleton _, ?_⟩
    intro x hx hx'
    rw [List.mem_singleton] at hx'
    subst hx'
    obtain ⟨kv, hkv, he⟩ := List.mem_map.mp hx
    exact hany (List.any_eq_true.mpr ⟨kv, hkv, by simp [he]⟩)

theorem findGroup_groupAdd (acc : List (String × List Paiement)) (p : Paiement)
    (c : String) :
    findGroup (groupAdd acc p) c =
      if p.categorie == c then some (((findGroup acc c).getD []) ++ [p])
      else findGroup acc c := by
  by_cases hany : acc.any (fun kv => kv.1 == p.categorie) = true
  · simp only [groupAdd, hany, if_true, findGroup]
    rw [List.find?_map]
    have hcomp : ((fun kv : String × List Paiement => kv.1 == c) ∘
        (fun kv => if kv.1 == p.categorie then (kv.1, kv.2 ++ [p]) else kv))
        = (fun kv : String × List Paiement => kv.1 == c) := by
      funext kv
      dsimp
      split <;> rfl
    rw [hcomp]
    by_cases hpc : (p.categorie == c) = true
    · have hc : p.categorie = c := by simpa using hpc
      cases hf : acc.find? (fun kv => kv.1 == c) with
      | none =>
        exfalso
        rw [List.find?_eq_none] at hf
        obtain ⟨kv, hkv, hkp⟩ := List.any_eq_true.mp hany
        exact hf kv hkv (by rw [← hc]; exact hkp)
      | some kv =>
        have hkvc : (kv.1 == c) = true := List.find?_some (p := fun kv : String × List Paiement => kv.1 == c) hf
        have hkvp : kv.1 = p.categorie := by rw [hc]; simpa using hkvc
        simp [hpc, hf, hkvp]
    · cases hf : acc.find? (fun kv => kv.1 == c) with
      | none => simp [hpc, hf]
      | some kv =>
        have hkvc' : (kv.1 == c) = true := List.find?_some (p := fun kv : String × List Paiement => kv.1 == c) hf
        have hkvc : kv.1 = c := by simpa using hkvc'
        have hne : kv.1 ≠ p.categorie := by
          rw [hkvc]
          intro hcc
          exact hpc (by simp [hcc])
        simp [hpc, hf, hne]
  · simp only [groupAdd, hany, if_false, findGroup, Bool.false_eq_true]
    rw [List.find?_append]
    by_cases hpc : (p.categorie == c) = true
    · have hc : p.categorie = c := by simpa using hpc
      have hf : acc.find? (fun kv => kv.1 == c) = none := by
        rw [List.find?_eq_none]
        intro kv hkv hkc
        exact hany (List.any_eq_true.mpr ⟨kv, hkv, by rw [hc]; exact hkc⟩)
      simp [hf, hpc, List.find?]
    · have hf2 : List.find? (fun kv => kv.1 == c) [(p.categorie, [p])] = none := by
        simp [List.find?, hpc]
      simp [hf2, hpc]

theorem findGroup_foldl (ps : List Paiement) (acc : List (String × List Paiement))
    (c : String) :
    (findGroup (ps.foldl groupAdd acc) c).getD []
        = (findGroup acc c).getD [] ++ ps.filter (fun p => p.categorie == c) ∧
    (findGroup (ps.foldl groupAdd acc) c).isSome
        = ((findGroup acc c).isSome
            || !(ps.filter (fun p => p.categorie == c)).isEmpty) := by
  induction ps generalizing acc with
  | nil => simp
  | cons p t ih =>
    simp only [List.foldl_cons]
    obtain ⟨ih1, ih2⟩ := ih (groupAdd acc p)
    rw [ih1, ih2, findGroup_groupAdd]
    by_cases hpc : (p.categorie == c) = true
    · simp [hpc, List.filter_cons]
    · simp [hpc, List.filter_cons]

theorem findGroup_group (ps : List Paiement) (c : String) :
    findGroup (paiements_par_categorie ps) c
      = if (ps.filter (fun p => p.categorie == c)).isEmpty then none
        else some (ps.filter (fun p => p.categorie == c)) := by
  obtain ⟨h1, h2⟩ := findGroup_foldl ps [] c
  have hid : ps.foldl groupAdd [] = paiements_par_categorie ps := rfl
  have hnil : findGroup [] c = none := rfl
  rw [hid, hnil] at h1 h2
  simp only [Option.getD_none, Option.isSome_none, Bool.false_or,
    List.nil_append] at h1 h2
  cases hfg : findGroup (paiements_par_categorie ps) c with
  | none =>
    rw [hfg] at h2
    simp only [Option.isSome_none] at h2
    have he : (ps.filter (fun p => p.categorie == c)).isEmpty = true := by
      cases he' : (ps.filter (fun p => p.categorie == c)).isEmpty
      · rw [he'] at h2; simp at h2
      · rfl
    simp [he]
  | some l =>
    rw [hfg] at h1 h2
    simp only [Option.isSome_some, Option.getD_some] at h1 h2
    have he : (ps.filter (fun p => p.categorie == c)).isEmpty = false := by
      cases he' : (ps.filter (fun p => p.categorie == c)).isEmpty
      · rfl
      · rw [he'] at h2; simp at h2
    simp [he, h1]

theorem keys_nodup_group (ps : List Paiement) :
    ((paiements_par_categorie ps).map (fun kv => kv.1)).Nodup := by
  suffices h : ∀ acc : List (String × List Paiement),
      (acc.map (fun kv => kv.1)).Nodup →
      ((ps.foldl groupAdd acc).map (fun kv => kv.1)).Nodup from
    h [] (by simp)
  induction ps with
  | nil => intro acc h; simpa
  | cons p t ih =>
    intro acc h
    exact ih _ (keys_nodup_groupAdd acc p h)

theorem findGroup_of_mem (g : List (String × List Paiement))
    (kv : String × List Paiement)
    (hnd : (g.map (fun x => x.1)).Nodup) (hmem : kv ∈ g) :
    findGroup g kv.1 = some kv.2 := by
  induction g with
  | nil => cases hmem
  | cons hd t ih =>
    rcases List.mem_cons.mp hmem with rfl | hmem'
    · simp [findGroup, List.find?]
    · have hk : kv.1 ∈ t.map (fun x => x.1) :=
        List.mem_map.mpr ⟨kv, hmem', rfl⟩
      have hne : (hd.1 == kv.1) = false := by
        cases hh : (hd.1 == kv.1)
        · rfl
        · have : hd.1 = kv.1 := by simpa using hh
          rw [List.map_cons, List.nodup_cons] at hnd
          exact absurd (this ▸ hk) hnd.1
      have ht : (t.map (fun x => x.1)).Nodup := by
        rw [List.map_cons, List.nodup_cons] at hnd
        exact hnd.2
      simpa [findGroup, List.find?, hne] using ih ht hmem'

theorem sum_groupAdd (acc : List (String × List Paiement)) (p : Paiement)
    (hnd : (acc.map (fun kv => kv.1)).Nodup) :
    ((groupAdd acc p).map (fun kv => (kv.2.map (fun q => q.montant)).sum)).sum
      = ((acc.map (fun kv => (kv.2.map (fun q => q.montant)).sum)).sum)
          + p.montant := by
  by_cases hany : acc.any (fun kv => kv.1 == p.categorie) = true
  · simp only [groupAdd, hany, if_true]
    induction acc with
    | nil => simp at hany
    | cons kv t ih =>
      rw [List.map_cons, List.nodup_cons] at hnd
      by_cases hh : (kv.1 == p.categorie) = true
      · have hkv : kv.1 = p.categorie := by simpa using hh
        have ht : t.map (fun kv' =>
            if kv'.1 == p.categorie then (kv'.1, kv'.2 ++ [p]) else kv') = t := by
          have : ∀ kv' ∈ t,
              (if kv'.1 == p.categorie then (kv'.1, kv'.2 ++ [p]) else kv') = kv' := by
            intro kv' hkv'
            have : (kv'.1 == p.categorie) = false := by
              cases hc : (kv'.1 == p.categorie)
              · rfl
              · have he : kv'.1 = p.categorie := by simpa using hc
                exact absurd (List.mem_map.mpr ⟨kv', hkv', he.trans hkv.symm⟩)
                  hnd.1
            simp [this]
          rw [List.map_congr_left this, List.map_id' t]
        simp only [List.map_cons, hh, if_true, ht, List.sum_cons]
        simp
        ring
      · have hany' : t.any (fun kv' => kv'.1 == p.categorie) = true := by
          rcases List.any_eq_true.mp hany with ⟨kv', hkv', hp'⟩
          rcases List.mem_cons.mp hkv' with rfl | hmem'
          · exact absurd hp' (by simpa using hh)
          · exact List.any_eq_true.mpr ⟨kv', hmem', hp'⟩
        simp only [List.map_cons, hh, Bool.false_eq_true, if_false, List.sum_cons,
          ih hnd.2 hany']
        ring
  · simp [groupAdd, hany]

theorem sum_group (ps : List Paiement) :
    ((paiements_par_categorie ps).map
        (fun kv => (kv.2.map (fun q => q.montant)).sum)).sum
      = (ps.map (fun p => p.montant)).sum := by
  suffices h : ∀ acc : List (String × List Paiement),
      (acc.map (fun kv => kv.1)).Nodup →
      ((ps.foldl groupAdd acc).map
          (fun kv => (kv.2.map (fun q => q.montant)).sum)).sum
        = ((acc.map (fun kv => (kv.2.map (fun q => q.montant)).sum)).sum)
            + (ps.map (fun p => p.montant)).sum by
    simpa using h [] (by simp)
  induction ps with
  | nil => intro acc h; simp
  | cons p t ih =>
    intro acc h
    simp only [List.foldl_cons, List.map_cons, List.sum_cons]
    rw [ih _ (keys_nodup_groupAdd acc p h), sum_groupAdd acc p h]
    ring

/-- C10: in an assembled receipt the per-category grouping partitions the
fetched payments: the group keys are pairwise distinct, each group holds
exactly the fetched payments of its key's category, every fetched payment
lies in the (unique) group keyed by its category, and hence the grand
total equals the sum over the groups of the groups' amount sums. -/
theorem quittance_grouping (db : DB) (today : Date) (lid : Nat) (mois : String)
    (q : QuittanceView) (hq : generer_quittance db today lid mois = .ok q) :
    ((q.paiements_par_categorie.map (fun kv => kv.1)).Nodup) ∧
    (∀ kv ∈ q.paiements_par_categorie,
      kv.2 = q.paiements.filter (fun p => p.categorie == kv.1)) ∧
    (∀ p ∈ q.paiements,
      findGroup q.paiements_par_categorie p.categorie
        = some (q.paiements.filter (fun x => x.categorie == p.categorie))) ∧
    ((q.paiements_par_categorie.map
        (fun kv => (kv.2.map (fun x => x.montant)).sum)).sum
      = q.total_paiements) := by
  unfold generer_quittance at hq
  rcases hfl : db.locataires.find? (fun l => l.id == lid) with _ | loc
  · rw [hfl] at hq; simp at hq
  · rw [hfl] at hq
    rcases hp : parseMoisToken mois with _ | ⟨annee, moisNum⟩
    · rw [hp] at hq; simp at hq
    · rw [hp] at hq
      injection hq with h
      subst h
      dsimp only
      refine ⟨keys_nodup_group _, ?_, ?_, sum_group _⟩
      · intro kv hkv
        have hfg := findGroup_of_mem _ kv (keys_nodup_group _) hkv
        rw [findGroup_group] at hfg
        by_cases he : ((db.paiements.filter
              (fun p => p.locataire_id == lid && p.mois_concerne == mois)).filter
            (fun p => p.categorie == kv.1)).isEmpty = true
        · rw [if_pos he] at hfg; cases hfg
        · rw [if_neg (by simpa using he)] at hfg
          exact (Option.some.inj hfg).symm
      · intro p hp'
        rw [findGroup_group]
        rw [if_neg]
        intro he
        rw [List.isEmpty_iff] at he
        have hpmem : p ∈ (db.paiements.filter
            (fun x => x.locataire_id == lid && x.mois_concerne == mois)).filter
            (fun x => x.categorie == p.categorie) :=
          List.mem_filter.mpr ⟨hp', by simp⟩
        rw [he] at hpmem
        cases hpmem

theorem digitChar_toNat (d : Nat) (h : d < 10) : (digitChar d).toNat = 48 + d := by
  interval_cases d <;> decide

theorem bytesOf_fmtYM (y m : Nat) :
    bytesOf (fmtYM ⟨y, m⟩) =
      [48 + y / 1000 % 10, 48 + y / 100 % 10, 48 + y / 10 % 10, 48 + y % 10,
       45, 48 + m / 10 % 10, 48 + m % 10] := by
  have hd : ∀ d : Nat, (digitChar (d % 10)).toNat = 48 + d % 10 := fun d =>
    digitChar_toNat _ (Nat.mod_lt _ (by norm_num))
  have h45 : ('-' : Char).toNat = 45 := rfl
  simp [bytesOf, fmtYM, yearStr, pad2, hd, h45]

theorem lexLe_nil_nil : lexLe [] [] = true := rfl

theorem lexLe_cons_iff (a b : Nat) (as bs : List Nat) :
    lexLe (a :: as) (b :: bs) = true ↔ (a < b ∨ (a = b ∧ lexLe as bs = true)) := by
  by_cases h1 : a < b
  · simp [lexLe, h1]
  · by_cases h2 : b < a
    · simp [lexLe, h1, h2]
      omega
    · have h3 : a = b := by omega
      simp [lexLe, h1, h2, h3]

theorem sqlStrLe_fmtYM (a b : YM) (hya : a.year ≤ 9999) (hyb : b.year ≤ 9999)
    (hma : a.month < 100) (hmb : b.month < 100)
    (h : a.year < b.year ∨ (a.year = b.year ∧ a.month ≤ b.month)) :
    sqlStrLe (fmtYM a) (fmtYM b) = true := by
  obtain ⟨y₁, m₁⟩ := a
  obtain ⟨y₂, m₂⟩ := b
  rw [sqlStrLe, bytesOf_fmtYM, bytesOf_fmtYM]
  simp only [lexLe_cons_iff, lexLe_nil_nil, and_true]
  simp only at hya hyb hma hmb h
  rcases h with hlt | ⟨hEq, hm⟩
  · rcases Nat.lt_trichotomy (y₁ / 1000) (y₂ / 1000) with h3 | h3 | h3
    · exact Or.inl (by omega)
    · refine Or.inr ⟨by omega, ?_⟩
      rcases Nat.lt_trichotomy (y₁ / 100) (y₂ / 100) with h4 | h4 | h4
      · exact Or.inl (by omega)
      · refine Or.inr ⟨by omega, ?_⟩
        rcases Nat.lt_trichotomy (y₁ / 10) (y₂ / 10) with h5 | h5 | h5
        · exact Or.inl (by omega)
        · exact Or.inr ⟨by omega, Or.inl (by omega)⟩
        · exact absurd h5 (by omega)
      · exact absurd h4 (by omega)
    · exact absurd h3 (by omega)
  · subst hEq
    refine Or.inr ⟨rfl, Or.inr ⟨rfl, Or.inr ⟨rfl, Or.inr ⟨rfl,
      Or.inr ⟨trivial, ?_⟩⟩⟩⟩⟩
    rcases Nat.lt_trichotomy (m₁ / 10) (m₂ / 10) with h6 | h6 | h6
    · exact Or.inl (by omega)
    · exact Or.inr ⟨by omega, by omega⟩
    · exact absurd h6 (by omega)

theorem fmtYM_inj (a b : YM) (hya : a.year ≤ 9999) (hyb : b.year ≤ 9999)
    (hma : a.month < 100) (hmb : b.month < 100)
    (h : fmtYM a = fmtYM b) : a = b := by
  obtain ⟨y₁, m₁⟩ := a
  obtain ⟨y₂, m₂⟩ := b
  have hb := congrArg bytesOf h
  rw [bytesOf_fmtYM, bytesOf_fmtYM] at hb
  simp only [List.cons.injEq, and_true] at hb
  simp only at hya hyb hma hmb
  simp only [YM.mk.injEq]
  have a1 : y₁ / 10 / 10 = y₁ / 100 := by omega
  have a2 : y₁ / 100 / 10 = y₁ / 1000 := by omega
  have a3 : y₁ / 1000 / 10 = 0 := by omega
  have b1 : y₂ / 10 / 10 = y₂ / 100 := by omega
  have b2 : y₂ / 100 / 10 = y₂ / 1000 := by omega
  have b3 : y₂ / 1000 / 10 = 0 := by omega
  have c1 : m₁ / 10 / 10 = 0 := by omega
  have c2 : m₂ / 10 / 10 = 0 := by omega
  omega

theorem ymSubMonths_month (t : YM) (i : Nat) :
    1 ≤ (ymSubMonths t i).month ∧ (ymSubMonths t i).month ≤ 12 := by
  simp only [ymSubMonths, ymOfIndex]
  omega

theorem ymSubMonths_year (t : YM) (i : Nat) (hm : t.month ≤ 12)
    (hy1 : 1001 ≤ t.year) (hy2 : t.year ≤ 9999) (hi : i ≤ 12) :
    1000 ≤ (ymSubMonths t i).year ∧ (ymSubMonths t i).year ≤ 9999 := by
  simp only [ymSubMonths, ymOfIndex, ymIndex]
  omega

theorem ymSubMonths_le (t : YM) (i j : Nat) (hij : i ≤ j) (hj : j ≤ ymIndex t) :
    (ymSubMonths t j).year < (ymSubMonths t i).year ∨
      ((ymSubMonths t j).year = (ymSubMonths t i).year ∧
        (ymSubMonths t j).month ≤ (ymSubMonths t i).month) := by
  simp only [ymSubMonths, ymOfIndex]
  omega

theorem ymSubMonths_zero (t : YM) (hm1 : 1 ≤ t.month) (hm2 : t.month ≤ 12) :
    ymSubMonths t 0 = t := by
  obtain ⟨y, m⟩ := t
  simp only at hm1 hm2
  simp only [ymSubMonths, ymOfIndex, ymIndex, Nat.sub_zero, YM.mk.injEq]
  omega

theorem ymSubMonths_inj (t : YM) (i j : Nat) (hi : i ≤ 12) (hj : j ≤ 12)
    (hN : 12 ≤ ymIndex t) (h : ymSubMonths t i = ymSubMonths t j) : i = j := by
  simp only [ymSubMonths, ymOfIndex, YM.mk.injEq] at h
  omega

theorem revenusDict_eq (ps : List Paiement) (m key : String)
    (hk : sqlStrLe m key = true) :
    revenusDict ps m key
      = ((ps.filter (fun p => p.mois_concerne == key)).map
          (fun p => p.montant)).sum := by
  rw [revenusDict]
  have hf : ps.filter
        (fun p => sqlStrLe m p.mois_concerne && p.mois_concerne == key)
      = ps.filter (fun p => p.mois_concerne == key) := by
    apply List.filter_congr
    intro p _
    cases hpk : (p.mois_concerne == key)
    · simp
    · have he : p.mois_concerne = key := by simpa using hpk
      simp [he, hk]
  rw [hf]

theorem sum_filter_cons_key (ps : List Paiement) (c : String) (ks : List String)
    (hnc : (ks.any (fun s => c == s)) = false) :
    ((ps.filter (fun p => (c :: ks).any (fun s => p.mois_concerne == s))).map
      (fun p => p.montant)).sum
      = ((ps.filter (fun p => p.mois_concerne == c)).map
          (fun p => p.montant)).sum
        + ((ps.filter (fun p => ks.any (fun s => p.mois_concerne == s))).map
            (fun p => p.montant)).sum := by
  induction ps with
  | nil => simp
  | cons p t ih =>
    simp only [List.filter_cons]
    rw [List.any_cons]
    by_cases hpc : (p.mois_concerne == c) = true
    · have hec : p.mois_concerne = c := by simpa using hpc
      have hpk : (ks.any (fun s => p.mois_concerne == s)) = false := by
        rw [hec]
        exact hnc
      rw [if_pos (by simp [hpc]), if_pos hpc, if_neg (by simp [hpk])]
      simp only [List.map_cons, List.sum_cons]
      rw [ih]
      ring
    · by_cases hin : (ks.any (fun s => p.mois_concerne == s)) = true
      · rw [if_pos (by simp [hpc, hin]), if_neg (by simp [hpc]), if_pos hin]
        simp only [List.map_cons, List.sum_cons]
        rw [ih]
        ring
      · rw [if_neg (by simp [hpc, hin]), if_neg (by simp [hpc]),
          if_neg (by simp [hin])]
        exact ih

theorem sum_over_keys (ps : List Paiement) (ks : List String) (hnd : ks.Nodup) :
    ((ks.map (fun c =>
        ((ps.filter (fun p => p.mois_concerne == c)).map
          (fun p => p.montant)).sum)).sum)
      = ((ps.filter (fun p => ks.any (fun s => p.mois_concerne == s))).map
          (fun p => p.montant)).sum := by
  induction ks with
  | nil => simp
  | cons c ks ih =>
    rw [List.nodup_cons] at hnd
    have hnc : (ks.any (fun s => c == s)) = false := by
      cases hc : ks.any (fun s => c == s)
      · rfl
      · obtain ⟨s, hs, he⟩ := List.any_eq_true.mp hc
        have he' : c = s := by simpa using he
        exact absurd (he'.symm ▸ hs) hnd.1
    rw [List.map_cons, List.sum_cons, ih hnd.2, sum_filter_cons_key ps c ks hnc]

theorem monthsList_nodup (today : YM)
    (hm1 : 1 ≤ today.month) (hm2 : today.month ≤ 12)
    (hy1 : 1001 ≤ today.year) (hy2 : today.year ≤ 9999) :
    (monthsList today).Nodup := by
  have hN : 12 ≤ ymIndex today := by
    simp only [ymIndex]
    nlinarith
  apply List.Nodup.map_on ?_ (List.nodup_range 12)
  intro k₁ hk₁ k₂ hk₂ he
  rw [List.mem_range] at hk₁ hk₂
  have h₁ := ymSubMonths_year today (11 - k₁) hm2 hy1 hy2 (by omega)
  have h₂ := ymSubMonths_year today (11 - k₂) hm2 hy1 hy2 (by omega)
  have hm₁ := ymSubMonths_month today (11 - k₁)
  have hm₂ := ymSubMonths_month today (11 - k₂)
  have heq := fmtYM_inj _ _ h₁.2 h₂.2 (by omega) (by omega) he
  have := ymSubMonths_inj today (11 - k₁) (11 - k₂) (by omega) (by omega) hN heq
  omega

/-- C2: the trailing-12-month series has exactly 12 entries; entry k
(0-based, oldest first) is the month 11−k months before the current one —
so the last entry is the current month itself — and its total is the sum
of the amounts of all payments (any tenant, any category) whose
concerned-month token equals that month's token; consequently the twelve
totals sum to the total of all payments whose token lies among those 12
months. -/
theorem revenus_mensuels_spec (paiements : List Paiement) (today : YM)
    (hm1 : 1 ≤ today.month) (hm2 : today.month ≤ 12)
    (hy1 : 1001 ≤ today.year) (hy2 : today.year ≤ 9999) :
    (revenus_mensuels paiements today).length = 12 ∧
    (∀ k, ∀ hk : k < 12,
      (revenus_mensuels paiements today).get
          ⟨k, by simp [revenus_mensuels, hk]⟩
        = (moisLabel (ymSubMonths today (11 - k)),
            ((paiements.filter (fun p =>
                p.mois_concerne == fmtYM (ymSubMonths today (11 - k)))).map
              (fun p => p.montant)).sum)) ∧
    ymSubMonths today 0 = today ∧
    (((revenus_mensuels paiements today).map (fun e => e.2)).sum
      = ((paiements.filter (fun p =>
            (monthsList today).any (fun s => p.mois_concerne == s))).map
          (fun p => p.montant)).sum) := by
  have hN : 12 ≤ ymIndex today := by
    simp only [ymIndex]
    nlinarith
  have hdict : ∀ i, i ≤ 11 →
      revenusDict paiements (fmtYM (ymSubMonths today 12))
        (fmtYM (ymSubMonths today i))
      = ((paiements.filter (fun p =>
            p.mois_concerne == fmtYM (ymSubMonths today i))).map
          (fun p => p.montant)).sum := by
    intro i hi
    apply revenusDict_eq
    have h₁ := ymSubMonths_year today 12 hm2 hy1 hy2 (by omega)
    have h₂ := ymSubMonths_year today i hm2 hy1 hy2 (by omega)
    have hmm₁ := ymSubMonths_month today 12
    have hmm₂ := ymSubMonths_month today i
    exact sqlStrLe_fmtYM _ _ h₁.2 h₂.2 (by omega) (by omega)
      (ymSubMonths_le today i 12 (by omega) (by omega))
  refine ⟨by simp [revenus_mensuels], ?_, ymSubMonths_zero today hm1 hm2, ?_⟩
  · intro k hk
    simp only [revenus_mensuels, List.get_eq_getElem, List.getElem_map,
      List.getElem_range]
    rw [hdict (11 - k) (by omega)]
  · have hmap : (revenus_mensuels paiements today).map (fun e => e.2)
        = (monthsList today).map (fun c =>
            ((paiements.filter (fun p => p.mois_concerne == c)).map
              (fun p => p.montant)).sum) := by
      simp only [revenus_mensuels, monthsList, List.map_map]
      apply List.map_congr_left
      intro k hk
      rw [List.mem_range] at hk
      simp only [Function.comp]
      rw [hdict (11 - k) (by omega)]
    rw [hmap, sum_over_keys paiements (monthsList today)
      (monthsList_nodup today hm1 hm2 hy1 hy2)]

/-- Witness for C2: the series over the demo payments as of October
2025. -/
theorem revenus_mensuels_spec_witness :
    (revenus_mensuels demoDB.paiements ⟨2025, 10⟩).length = 12 ∧
    ymSubMonths ⟨2025, 10⟩ 0 = ⟨2025, 10⟩ ∧
    ((revenus_mensuels demoDB.paiements ⟨2025, 10⟩).map (fun e => e.2)).sum
      = ((demoDB.paiements.filter (fun p =>
            (monthsList ⟨2025, 10⟩).any (fun s => p.mois_concerne == s))).map
          (fun p => p.montant)).sum :=
  ⟨(revenus_mensuels_spec demoDB.paiements ⟨2025, 10⟩
      (by decide) (by decide) (by decide) (by decide)).1,
   (revenus_mensuels_spec demoDB.paiements ⟨2025, 10⟩
      (by decide) (by decide) (by decide) (by decide)).2.2.1,
   (revenus_mensuels_spec demoDB.paiements ⟨2025, 10⟩
      (by decide) (by decide) (by decide) (by decide)).2.2.2⟩

/-- Witness for C10 on the demo database: the October 2025 receipt of the
demo tenant (rent and water payments). -/
theorem quittance_grouping_witness :
    ∃ q, generer_quittance demoDB ⟨2025, 10, 12⟩ 1 "2025-10" = .ok q ∧
      (((q.paiements_par_categorie.map (fun kv => kv.1)).Nodup) ∧
       (∀ kv ∈ q.paiements_par_categorie,
         kv.2 = q.paiements.filter (fun p => p.categorie == kv.1)) ∧
       (∀ p ∈ q.paiements,
         findGroup q.paiements_par_categorie p.categorie
           = some (q.paiements.filter (fun x => x.categorie == p.categorie))) ∧
       ((q.paiements_par_categorie.map
           (fun kv => (kv.2.map (fun x => x.montant)).sum)).sum
         = q.total_paiements)) :=
  ⟨_, rfl, quittance_grouping demoDB ⟨2025, 10, 12⟩ 1 "2025-10" _ rfl⟩

end GestionLocative
